import Mathlib

/-!
Shallow embedding of the Budgello application.

Source of truth:
* src/Backend/database.go   — the relational schema (UNIQUE / CHECK / FOREIGN KEY
  constraints, ON DELETE actions);
* src/Backend/handlers.go   — the HTTP handlers.  The file records two evolutions
  of the code; the later evolution (frequency-based budgets, matching the schema in
  database.go) is the current program and is what is embedded here.
* src/Frontend/Budgello/src/App.tsx — the dashboard aggregation (period spend).

Modelling choices:
* Go `int` is modelled as `Int`; monetary amounts (`float64` in Go, NUMERIC(10,2)
  in the schema) as `Rat`; `time.Time` as an `Int` timestamp whose zero value is
  `0` (`t.IsZero()` becomes `t == 0`, matching the Go zero value produced by
  decoding a JSON body that omits the field).
* A database table is a list of rows; SERIAL id assignment is a `next…Id` counter.
* A SQL INSERT/UPDATE succeeds exactly when the schema constraints of
  database.go hold for the written values (UNIQUE, CHECK, FOREIGN KEY); a failed
  statement returns an error to the handler, which surfaces it as its hard-coded
  HTTP error response.  Rows carry a nullable `category_id` as `Option Int`
  (`ON DELETE SET NULL`); Go's `rows.Scan` into a plain `int` fails on a SQL NULL,
  which the scan step models by returning `none`.
* bcrypt hashing/verification is an external library and is passed in as an
  abstract function parameter (`hash`, `cmp`).
* HTTP responses are a status code plus a JSON body; the bodies produced by the
  handlers are enumerated in `Body`.  Requests arrive already JSON-decoded: a
  field absent from the request JSON decodes to the Go zero value, which is
  modelled by `Option` fields read with `getD`.
-/

namespace Budgello

/-- Row of the `users` table (id SERIAL, username TEXT UNIQUE NOT NULL,
password TEXT NOT NULL, role TEXT NOT NULL DEFAULT 'user'
CHECK (role IN ('admin','user'))). -/
structure UserRow where
  id : Int
  username : String
  password : String
  role : String
  deriving DecidableEq

/-- Row of the `categories` table (id SERIAL, user_id REFERENCES users,
name TEXT NOT NULL, UNIQUE(user_id, name)). -/
structure CategoryRow where
  id : Int
  userId : Int
  name : String
  deriving DecidableEq

/-- Row of the `transactions` table (id SERIAL, user_id REFERENCES users,
description TEXT, amount NUMERIC NOT NULL, date TIMESTAMP NOT NULL,
category_id REFERENCES categories ON DELETE SET NULL).  `categoryId` is
nullable, hence `Option Int`. -/
structure TransactionRow where
  id : Int
  userId : Int
  description : String
  amount : Rat
  date : Int
  categoryId : Option Int
  deriving DecidableEq

/-- Row of the `budgets` table (id SERIAL, user_id REFERENCES users,
period DATE NOT NULL, frequency TEXT NOT NULL CHECK (frequency IN
('weekly','monthly','yearly')), amount NUMERIC NOT NULL,
UNIQUE(user_id, frequency)). -/
structure BudgetRow where
  id : Int
  userId : Int
  period : Int
  frequency : String
  amount : Rat
  deriving DecidableEq

/-- Row of the `shared_budgets` table (id SERIAL, budget_id REFERENCES budgets,
from_user_id REFERENCES users, to_user_id REFERENCES users,
UNIQUE(budget_id, to_user_id)). -/
structure SharedBudgetRow where
  id : Int
  budgetId : Int
  fromUserId : Int
  toUserId : Int
  deriving DecidableEq

/-- The relational database state: the five tables of `createTables` plus the
SERIAL sequences. -/
structure DBState where
  users : List UserRow := []
  categories : List CategoryRow := []
  transactions : List TransactionRow := []
  budgets : List BudgetRow := []
  sharedBudgets : List SharedBudgetRow := []
  nextUserId : Int := 1
  nextCategoryId : Int := 1
  nextTransactionId : Int := 1
  nextBudgetId : Int := 1
  nextSharedId : Int := 1
  deriving DecidableEq

/-- The Go `Transaction` struct as it appears in responses: `CategoryID` is a
plain (non-nullable) `int`. -/
structure TransactionOut where
  id : Int
  userId : Int
  description : String
  amount : Rat
  date : Int
  categoryId : Int
  deriving DecidableEq

/-- JSON bodies the embedded handlers produce. -/
inductive Body where
  | message (s : String)
  | error (s : String)
  | user (u : UserRow)
  | users (us : List UserRow)
  | login (userId : Int) (role : String)
  | category (c : CategoryRow)
  | txn (t : TransactionOut)
  | txns (ts : List TransactionOut)
  | budget (b : BudgetRow)
  | share (sb : SharedBudgetRow)
  deriving DecidableEq

/-- An HTTP response: status code and JSON body. -/
structure Resp where
  status : Nat
  body : Body
  deriving DecidableEq

/-- FOREIGN KEY lookup: does a user with this id exist? -/
def userExists (st : DBState) (uid : Int) : Bool :=
  st.users.any (fun u => u.id == uid)

/-- UNIQUE(username) lookup. -/
def usernameTaken (st : DBState) (name : String) : Bool :=
  st.users.any (fun u => u.username == name)

/-- FOREIGN KEY lookup: does a category with this id exist? -/
def categoryExists (st : DBState) (cid : Int) : Bool :=
  st.categories.any (fun c => c.id == cid)

/-- FOREIGN KEY lookup: does a budget with this id exist? -/
def budgetExists (st : DBState) (bid : Int) : Bool :=
  st.budgets.any (fun b => b.id == bid)

/-- UNIQUE(budget_id, to_user_id) lookup on `shared_budgets`. -/
def alreadyShared (st : DBState) (bid toUid : Int) : Bool :=
  st.sharedBudgets.any (fun s => s.budgetId == bid && s.toUserId == toUid)

/-- CHECK (frequency IN ('weekly','monthly','yearly')). -/
def frequencyOk (f : String) : Bool :=
  f == "weekly" || f == "monthly" || f == "yearly"

/-- CHECK (role IN ('admin','user')). -/
def roleOk (r : String) : Bool :=
  r == "admin" || r == "user"

/-- RegisterUser (handlers.go, later evolution): hash the password with bcrypt,
INSERT INTO users (username, password) — the role column takes its DEFAULT
'user' — RETURNING id; on insert failure (UNIQUE username violated) respond
500 "Failed to register user"; on success clear the password field and respond
201 with the user record. -/
def registerUser (hash : String → String) (st : DBState)
    (username password : String) : DBState × Resp :=
  if usernameTaken st username then
    (st, ⟨500, .error "Failed to register user"⟩)
  else
    let u : UserRow := ⟨st.nextUserId, username, hash password, "user"⟩
    ({ st with users := st.users ++ [u], nextUserId := st.nextUserId + 1 },
     ⟨201, .user { u with password := "" }⟩)

/-- LoginUser (handlers.go, later evolution): SELECT id, password, role FROM
users WHERE username; no row (sql.ErrNoRows) → 401 "Invalid username or
password"; bcrypt comparison failure → 401 with the same message; otherwise
200 with user_id and role (the password is not part of the response map). -/
def loginUser (cmp : String → String → Bool) (st : DBState)
    (username password : String) : Resp :=
  match st.users.find? (fun u => u.username == username) with
  | none => ⟨401, .error "Invalid username or password"⟩
  | some u =>
    if cmp u.password password then ⟨200, .login u.id u.role⟩
    else ⟨401, .error "Invalid username or password"⟩

/-- GetAllUsers: SELECT id, username, role FROM users — the password column is
not selected, so the scanned Go struct keeps its zero value "" there. -/
def getAllUsers (st : DBState) : Resp :=
  ⟨200, .users (st.users.map (fun u => { u with password := "" }))⟩

/-- Decoded body of an UpdateUser request; a JSON-omitted field is `none` and
decodes to the Go zero value "". -/
structure UserUpdateReq where
  username : Option String := none
  role : Option String := none

/-- UpdateUser: UPDATE users SET username=$1, role=$2 WHERE id=$3.  The write
is subject to the schema constraints (role CHECK, username UNIQUE); a violated
constraint aborts the statement and the handler responds 500 "Failed to update
user".  With no matching row the statement affects nothing and the handler
still responds 200 (ids are SERIAL primary keys, so at most one row matches). -/
def updateUser (st : DBState) (id : Int) (req : UserUpdateReq) : DBState × Resp :=
  let uname := req.username.getD ""
  let role := req.role.getD ""
  match st.users.find? (fun u => u.id == id) with
  | none => (st, ⟨200, .message "User updated successfully"⟩)
  | some _ =>
    if roleOk role && !(st.users.any (fun u => !(u.id == id) && u.username == uname)) then
      ({ st with users := st.users.map (fun u =>
          if u.id == id then { u with username := uname, role := role } else u) },
       ⟨200, .message "User updated successfully"⟩)
    else
      (st, ⟨500, .error "Failed to update user"⟩)

/-- CreateCategory: INSERT INTO categories (user_id, name) RETURNING id; any
insert failure (user FOREIGN KEY, UNIQUE(user_id, name)) → 500 with the
handler's message; success → 201 with the record. -/
def createCategory (st : DBState) (userId : Int) (name : String) : DBState × Resp :=
  if userExists st userId
      && !(st.categories.any (fun c => c.userId == userId && c.name == name)) then
    let c : CategoryRow := ⟨st.nextCategoryId, userId, name⟩
    ({ st with categories := st.categories ++ [c],
               nextCategoryId := st.nextCategoryId + 1 },
     ⟨201, .category c⟩)
  else
    (st, ⟨500, .error "Failed to create category. It may already exist for this user."⟩)

/-- DeleteCategory: DELETE FROM categories WHERE id=$1.  The schema's
ON DELETE SET NULL detaches referencing transactions (their category_id becomes
NULL).  The handler responds 200 regardless of whether a row matched. -/
def deleteCategory (st : DBState) (cid : Int) : DBState × Resp :=
  ({ st with
      categories := st.categories.filter (fun c => !(c.id == cid)),
      transactions := st.transactions.map (fun t =>
        if t.categoryId == some cid then { t with categoryId := none } else t) },
   ⟨200, .message "Category deleted successfully"⟩)

/-- Decoded body of a CreateTransaction request (Go `Transaction` struct); a
JSON-omitted date decodes to the zero `time.Time`, modelled as `0`. -/
structure TxnCreateReq where
  userId : Int
  description : String
  amount : Rat
  date : Int := 0
  categoryId : Int := 0

/-- CreateTransaction (later evolution): if the decoded date is the zero value
it is replaced by `time.Now()`; INSERT ... RETURNING id sets the struct's ID;
insert failure (user or category FOREIGN KEY) → 500; success → 201 echoing the
mutated struct (assigned id and computed date included). -/
def createTransaction (now : Int) (st : DBState) (req : TxnCreateReq) :
    DBState × Resp :=
  let date := if req.date == 0 then now else req.date
  if userExists st req.userId && categoryExists st req.categoryId then
    let row : TransactionRow :=
      ⟨st.nextTransactionId, req.userId, req.description, req.amount, date,
        some req.categoryId⟩
    ({ st with transactions := st.transactions ++ [row],
               nextTransactionId := st.nextTransactionId + 1 },
     ⟨201, .txn ⟨st.nextTransactionId, req.userId, req.description, req.amount,
                 date, req.categoryId⟩⟩)
  else
    (st, ⟨500, .error "Failed to create transaction"⟩)

/-- ORDER BY date DESC comparison used by `GetTransactions`. -/
def dateGe (a b : TransactionRow) : Prop := b.date ≤ a.date

instance : DecidableRel dateGe := fun a b => inferInstanceAs (Decidable (b.date ≤ a.date))

instance : IsTotal TransactionRow dateGe := ⟨fun a b => Int.le_total b.date a.date⟩

instance : IsTrans TransactionRow dateGe :=
  ⟨fun _ _ _ h h' => Int.le_trans h' h⟩

/-- `rows.Scan` of one transaction row into the Go struct: scanning the SQL
NULL produced by ON DELETE SET NULL into the plain `int` field `CategoryID`
fails ("converting NULL to int is unsupported"). -/
def scanTransaction (t : TransactionRow) : Option TransactionOut :=
  match t.categoryId with
  | none => none
  | some c => some ⟨t.id, t.userId, t.description, t.amount, t.date, c⟩

/-- Scan a result set row by row, stopping at the first scan error. -/
def scanTransactions : List TransactionRow → Option (List TransactionOut)
  | [] => some []
  | t :: ts =>
    match scanTransaction t, scanTransactions ts with
    | some o, some os => some (o :: os)
    | _, _ => none

/-- The rows produced by SELECT ... FROM transactions WHERE user_id=$1
ORDER BY date DESC. -/
def transactionsQuery (st : DBState) (uid : Int) : List TransactionRow :=
  List.insertionSort dateGe (st.transactions.filter (fun t => t.userId == uid))

/-- GetTransactions (later evolution): run the ORDER BY date DESC query, scan
each row; a scan error → 500 "Failed to scan transaction", otherwise 200 with
the list. -/
def getTransactions (st : DBState) (uid : Int) : Resp :=
  match scanTransactions (transactionsQuery st uid) with
  | none => ⟨500, .error "Failed to scan transaction"⟩
  | some ts => ⟨200, .txns ts⟩

/-- Decoded body of an UpdateTransaction request; JSON-omitted fields decode to
Go zero values ("", 0, zero time, 0). -/
structure TxnUpdateReq where
  description : Option String := none
  amount : Option Rat := none
  date : Option Int := none
  categoryId : Option Int := none

/-- UpdateTransaction: UPDATE transactions SET description=$1, amount=$2,
date=$3, category_id=$4 WHERE id=$5.  The written category_id must satisfy the
FOREIGN KEY to categories; a violation aborts the statement → 500.  user_id is
not in the SET list and is untouched. -/
def updateTransaction (st : DBState) (id : Int) (req : TxnUpdateReq) :
    DBState × Resp :=
  let desc := req.description.getD ""
  let amt := req.amount.getD 0
  let date := req.date.getD 0
  let cat := req.categoryId.getD 0
  match st.transactions.find? (fun t => t.id == id) with
  | none => (st, ⟨200, .message "Transaction updated successfully"⟩)
  | some _ =>
    if categoryExists st cat then
      ({ st with transactions := st.transactions.map (fun t =>
          if t.id == id then
            { t with description := desc, amount := amt, date := date,
                     categoryId := some cat }
          else t) },
       ⟨200, .message "Transaction updated successfully"⟩)
    else
      (st, ⟨500, .error "Failed to update transaction"⟩)

/-- Decoded body of a CreateBudget request. -/
structure BudgetCreateReq where
  userId : Int
  period : Int := 0
  frequency : String := ""
  amount : Rat := 0

/-- CreateBudget (later evolution): INSERT INTO budgets (user_id, period,
frequency, amount) RETURNING id; any insert failure (user FOREIGN KEY,
frequency CHECK, UNIQUE(user_id, frequency)) → 500 "Failed to create budget";
success → 201 with the record. -/
def createBudget (st : DBState) (req : BudgetCreateReq) : DBState × Resp :=
  if userExists st req.userId && frequencyOk req.frequency
      && !(st.budgets.any (fun b =>
            b.userId == req.userId && b.frequency == req.frequency)) then
    let b : BudgetRow :=
      ⟨st.nextBudgetId, req.userId, req.period, req.frequency, req.amount⟩
    ({ st with budgets := st.budgets ++ [b], nextBudgetId := st.nextBudgetId + 1 },
     ⟨201, .budget b⟩)
  else
    (st, ⟨500, .error "Failed to create budget"⟩)

/-- Decoded body of an UpdateBudget request; JSON-omitted fields decode to Go
zero values (zero time, "", 0). -/
structure BudgetUpdateReq where
  period : Option Int := none
  frequency : Option String := none
  amount : Option Rat := none

/-- UpdateBudget: UPDATE budgets SET period=$1, frequency=$2, amount=$3 WHERE
id=$4, subject to the frequency CHECK and UNIQUE(user_id, frequency); a
violation aborts the statement → 500.  user_id is not in the SET list. -/
def updateBudget (st : DBState) (id : Int) (req : BudgetUpdateReq) :
    DBState × Resp :=
  let period := req.period.getD 0
  let freq := req.frequency.getD ""
  let amt := req.amount.getD 0
  match st.budgets.find? (fun b => b.id == id) with
  | none => (st, ⟨200, .message "Budget updated successfully"⟩)
  | some target =>
    if frequencyOk freq && !(st.budgets.any (fun b =>
        !(b.id == id) && b.userId == target.userId && b.frequency == freq)) then
      ({ st with budgets := st.budgets.map (fun b =>
          if b.id == id then
            { b with period := period, frequency := freq, amount := amt }
          else b) },
       ⟨200, .message "Budget updated successfully"⟩)
    else
      (st, ⟨500, .error "Failed to update budget"⟩)

/-- ShareBudget (later evolution, handlers.go lines 715-737): first verify that
`to_user_id` exists (failure → 400 "User to share with does not exist."); then
INSERT INTO shared_budgets (budget_id, from_user_id, to_user_id) RETURNING id —
subject to the budget and user FOREIGN KEYs and UNIQUE(budget_id, to_user_id);
insert failure → 500; success → 201 with the record.  Note: unlike the earlier
evolution (lines 196-224), no check that `from_user_id` owns the budget is
performed. -/
def shareBudget (st : DBState) (budgetId fromUserId toUserId : Int) :
    DBState × Resp :=
  if !(userExists st toUserId) then
    (st, ⟨400, .error "User to share with does not exist."⟩)
  else if budgetExists st budgetId && userExists st fromUserId
      && !(alreadyShared st budgetId toUserId) then
    let sb : SharedBudgetRow := ⟨st.nextSharedId, budgetId, fromUserId, toUserId⟩
    ({ st with sharedBudgets := st.sharedBudgets ++ [sb],
               nextSharedId := st.nextSharedId + 1 },
     ⟨201, .share sb⟩)
  else
    (st, ⟨500, .error "Failed to share budget. It might already be shared with this user."⟩)

/-- Owner of a budget, as read by `SELECT user_id FROM budgets WHERE id=$1`. -/
def budgetOwner (st : DBState) (bid : Int) : Option Int :=
  (st.budgets.find? (fun b => b.id == bid)).map (fun b => b.userId)

/-- Re-reading a scanned Go `Transaction` struct as the database row it came
from (a successfully scanned row always has a non-NULL category). -/
def outToRow (o : TransactionOut) : TransactionRow :=
  ⟨o.id, o.userId, o.description, o.amount, o.date, some o.categoryId⟩

/-- The password strings of the user records embedded in a response body. -/
def bodyPasswords : Body → List String
  | .user u => [u.password]
  | .users us => us.map (fun u => u.password)
  | _ => []

/-- A concrete stand-in for bcrypt hashing, used to instantiate theorems. -/
def hashEx : String → String := fun p => "h:" ++ p

/-- A concrete stand-in for bcrypt verification, matching `hashEx`. -/
def cmpEx : String → String → Bool := fun h p => h == "h:" ++ p

/-- Concrete user rows for instantiating theorems. -/
def alice : UserRow := ⟨1, "alice", "h:pw123", "user"⟩

/-- Concrete user row. -/
def bob : UserRow := ⟨2, "bob", "h:pw456", "user"⟩

/-- Concrete user row. -/
def carol : UserRow := ⟨3, "carol", "h:pw789", "user"⟩

/-- A concrete database state: three users, one category owned by user 1, two
transactions of user 1 referencing it, one monthly budget owned by user 1. -/
def stEx : DBState :=
  { users := [alice, bob, carol],
    categories := [⟨1, 1, "Groceries"⟩],
    transactions := [⟨1, 1, "milk", 5, 100, some 1⟩, ⟨2, 1, "bread", 3, 200, some 1⟩],
    budgets := [⟨1, 1, 0, "monthly", 2500⟩],
    sharedBudgets := [],
    nextUserId := 4, nextCategoryId := 2, nextTransactionId := 3,
    nextBudgetId := 2, nextSharedId := 1 }

end Budgello

namespace Frontend

/-- The dashboard client's `Transaction` record (App.tsx). -/
structure Txn where
  id : Int
  user_id : Int
  description : String
  amount : Rat
  date : Int
  category_id : Int
  deriving DecidableEq

/-- The period-spend aggregation of DashboardPage (App.tsx lines 393-401):
`transactions.filter(t => new Date(t.date) >= periodStart)
             .reduce((sum, t) => sum + t.amount, 0)`. -/
def periodSpend (periodStart : Int) (transactions : List Txn) : Rat :=
  (transactions.filter (fun t => decide (periodStart ≤ t.date))).foldl
    (fun sum t => sum + t.amount) 0

/-- Concrete dashboard transaction for instantiating theorems. -/
def txnA : Txn := ⟨1, 1, "milk", 5, 100, 1⟩

/-- Concrete dashboard transaction. -/
def txnB : Txn := ⟨2, 1, "bread", 3, 200, 1⟩

end Frontend

namespace Budgello

/-- C3: verify(name, secret) fails with Unauthorized (HTTP 401) both when the
username is unknown and when the stored bcrypt hash does not match the supplied
secret, and the two failures carry the identical response: status 401 with the
generic body "Invalid username or password". -/
theorem loginUser_unauthorized_uniform
    (cmp : String → String → Bool) (st : DBState) (username password : String) :
    (st.users.find? (fun u => u.username == username) = none →
      loginUser cmp st username password =
        ⟨401, .error "Invalid username or password"⟩)
    ∧ (∀ u, st.users.find? (fun u => u.username == username) = some u →
        cmp u.password password = false →
        loginUser cmp st username password =
          ⟨401, .error "Invalid username or password"⟩) := by
  constructor
  · intro h
    simp [loginUser, h]
  · intro u h hc
    simp [loginUser, h, hc]

/-- C3 witness: in the concrete state, login with an unknown name and login
with a wrong password both yield the identical 401 response. -/
theorem loginUser_unauthorized_uniform_witness :
    loginUser cmpEx stEx "mallory" "pw" =
      ⟨401, .error "Invalid username or password"⟩
    ∧ loginUser cmpEx stEx "alice" "wrong" =
      ⟨401, .error "Invalid username or password"⟩ :=
  ⟨(loginUser_unauthorized_uniform cmpEx stEx "mallory" "pw").1 (by decide),
   (loginUser_unauthorized_uniform cmpEx stEx "alice" "wrong").2 alice
     (by decide) (by decide)⟩

/-- C5: deleting a category referenced by transactions succeeds and detaches
them (ON DELETE SET NULL keeps the rows, with a NULL category), but a
subsequent read does NOT show an empty category reference: GetTransactions
scans the NULL category_id into the Go struct's plain int field, the scan
fails, and the whole listing answers 500 "Failed to scan transaction".
Concretely, with user 1 owning category 1 and transactions 1 and 2 that
reference it: after DeleteCategory 1 both transactions survive with a NULL
category, and GetTransactions for user 1 returns the 500 scan error. -/
theorem deleteCategory_detach_then_read_fails :
    (deleteCategory stEx 1).2 = ⟨200, .message "Category deleted successfully"⟩
    ∧ (deleteCategory stEx 1).1.transactions =
        [⟨1, 1, "milk", 5, 100, none⟩, ⟨2, 1, "bread", 3, 200, none⟩]
    ∧ getTransactions (deleteCategory stEx 1).1 1 =
        ⟨500, .error "Failed to scan transaction"⟩ := by decide

/-- C2 counterexample: a duplicate username registration, a duplicate
(user, name) category creation and a duplicate (user, frequency) budget
creation all answer HTTP 500 (the Internal kind), not 409 (Conflict). -/
theorem uniqueness_conflict_cex :
    usernameTaken stEx "alice" = true
    ∧ (registerUser hashEx stEx "alice" "pw").2.status = 500
    ∧ (registerUser hashEx stEx "alice" "pw").2.status ≠ 409
    ∧ (createCategory stEx 1 "Groceries").2.status = 500
    ∧ (createCategory stEx 1 "Groceries").2.status ≠ 409
    ∧ (createBudget stEx ⟨1, 0, "monthly", 100⟩).2.status = 500
    ∧ (createBudget stEx ⟨1, 0, "monthly", 100⟩).2.status ≠ 409 := by decide

/-- C2 amended: every uniqueness violation — duplicate username on
registration, duplicate (owner, name) on category creation, duplicate
(owner, frequency) on budget creation — is surfaced as an Internal error
(HTTP 500 with the handler's fixed message) and leaves the database unchanged;
no Conflict (409) kind exists in the code. -/
theorem uniqueness_violation_internal
    (hash : String → String) (st : DBState) (username password : String)
    (uid : Int) (name : String) (breq : BudgetCreateReq)
    (hu : usernameTaken st username = true)
    (hc : st.categories.any (fun c => c.userId == uid && c.name == name) = true)
    (hb : st.budgets.any (fun b =>
        b.userId == breq.userId && b.frequency == breq.frequency) = true) :
    registerUser hash st username password =
      (st, ⟨500, .error "Failed to register user"⟩)
    ∧ createCategory st uid name =
      (st, ⟨500, .error "Failed to create category. It may already exist for this user."⟩)
    ∧ createBudget st breq = (st, ⟨500, .error "Failed to create budget"⟩) := by
  refine ⟨?_, ?_, ?_⟩
  · simp [registerUser, hu]
  · simp [createCategory, hc]
  · simp [createBudget, hb]

/-- C2 witness: the amended statement instantiated in the concrete state. -/
theorem uniqueness_violation_internal_witness :
    registerUser hashEx stEx "alice" "pw" =
      (stEx, ⟨500, .error "Failed to register user"⟩)
    ∧ createCategory stEx 1 "Groceries" =
      (stEx, ⟨500, .error "Failed to create category. It may already exist for this user."⟩)
    ∧ createBudget stEx ⟨1, 0, "monthly", 100⟩ =
      (stEx, ⟨500, .error "Failed to create budget"⟩) :=
  uniqueness_violation_internal hashEx stEx "alice" "pw" 1 "Groceries"
    ⟨1, 0, "monthly", 100⟩ (by decide) (by decide) (by decide)

/-- C4 counterexample: sharing budget 1 with the nonexistent user 99 answers
HTTP 400 (BadRequest), not 404 (NotFound); no row is created. -/
theorem share_missing_recipient_cex :
    userExists stEx 99 = false
    ∧ (shareBudget stEx 1 1 99).2.status = 400
    ∧ (shareBudget stEx 1 1 99).2.status ≠ 404
    ∧ (shareBudget stEx 1 1 99).1 = stEx := by decide

/-- C4 amended: a share request whose to_user_id does not correspond to an
existing user fails with BadRequest (HTTP 400, body "User to share with does
not exist.") — not NotFound — and the state, in particular the shared_budgets
table, is unchanged. -/
theorem shareBudget_missing_recipient_badRequest
    (st : DBState) (budgetId fromUserId toUserId : Int)
    (h : userExists st toUserId = false) :
    shareBudget st budgetId fromUserId toUserId =
      (st, ⟨400, .error "User to share with does not exist."⟩) := by
  simp [shareBudget, h]

/-- C4 witness: the amended statement instantiated in the concrete state. -/
theorem shareBudget_missing_recipient_badRequest_witness :
    shareBudget stEx 1 1 99 =
      (stEx, ⟨400, .error "User to share with does not exist."⟩) :=
  shareBudget_missing_recipient_badRequest stEx 1 1 99 (by decide)

end Budgello

namespace Budgello

/-- C1 counterexample: budget 1 is owned by user 1, yet a share request with
from_user_id = 2 (not the owner) and recipient 3 does not fail with Forbidden
(403): the current handler answers 201 Created and the SharedBudget row is
inserted. -/
theorem shareBudget_nonowner_succeeds_cex :
    budgetOwner stEx 1 = some 1
    ∧ (shareBudget stEx 1 2 3).2.status = 201
    ∧ (shareBudget stEx 1 2 3).2.status ≠ 403
    ∧ (⟨1, 1, 2, 3⟩ : SharedBudgetRow) ∈ (shareBudget stEx 1 2 3).1.sharedBudgets := by
  decide

/-- C1 amended: the current ShareBudget handler performs no ownership check.
For every share request whose referenced budget exists, whose granting and
recipient users exist, and which does not duplicate an existing share, the
operation succeeds with 201 and inserts the SharedBudget row even though
from_user_id is not the budget's owner.  (The earlier evolution of the handler
did reject this case with 403 Forbidden.) -/
theorem shareBudget_no_ownership_check
    (st : DBState) (bid fid tid : Int) (bud : BudgetRow)
    (hmem : bud ∈ st.budgets) (hid : bud.id = bid)
    (_hnotowner : bud.userId ≠ fid)
    (ht : userExists st tid = true)
    (hf : userExists st fid = true)
    (hdup : alreadyShared st bid tid = false) :
    shareBudget st bid fid tid =
      ({ st with
          sharedBudgets := st.sharedBudgets ++ [⟨st.nextSharedId, bid, fid, tid⟩],
          nextSharedId := st.nextSharedId + 1 },
       ⟨201, .share ⟨st.nextSharedId, bid, fid, tid⟩⟩) := by
  have hbe : budgetExists st bid = true :=
    List.any_eq_true.mpr ⟨bud, hmem, by simp [hid]⟩
  simp [shareBudget, ht, hbe, hf, hdup]

/-- C1 witness: the amended statement instantiated in the concrete state (user
2 shares user 1's budget with user 3 and succeeds). -/
theorem shareBudget_no_ownership_check_witness :
    shareBudget stEx 1 2 3 =
      ({ stEx with
          sharedBudgets := stEx.sharedBudgets ++ [⟨stEx.nextSharedId, 1, 2, 3⟩],
          nextSharedId := stEx.nextSharedId + 1 },
       ⟨201, .share ⟨stEx.nextSharedId, 1, 2, 3⟩⟩) :=
  shareBudget_no_ownership_check stEx 1 2 3 ⟨1, 1, 0, "monthly", 2500⟩
    (by decide) (by decide) (by decide) (by decide) (by decide) (by decide)

/-- C7: a transaction-creation request whose decoded date is the zero value
(no date supplied) stores the row with date = time.Now() and responds 201
echoing the server-assigned id and the computed default date, provided the
insert's foreign keys hold. -/
theorem createTransaction_default_date
    (now : Int) (st : DBState) (req : TxnCreateReq)
    (hdate : req.date = 0)
    (hu : userExists st req.userId = true)
    (hc : categoryExists st req.categoryId = true) :
    createTransaction now st req =
      ({ st with
          transactions := st.transactions ++
            [⟨st.nextTransactionId, req.userId, req.description, req.amount, now,
              some req.categoryId⟩],
          nextTransactionId := st.nextTransactionId + 1 },
       ⟨201, .txn ⟨st.nextTransactionId, req.userId, req.description, req.amount,
                   now, req.categoryId⟩⟩) := by
  simp [createTransaction, hdate, hu, hc]

/-- C7 witness: creating a dateless transaction at time 555 in the concrete
state stores and returns date 555 and the assigned id 3. -/
theorem createTransaction_default_date_witness :
    createTransaction 555 stEx ⟨1, "coffee", 4, 0, 1⟩ =
      ({ stEx with
          transactions := stEx.transactions ++ [⟨3, 1, "coffee", 4, 555, some 1⟩],
          nextTransactionId := 4 },
       ⟨201, .txn ⟨3, 1, "coffee", 4, 555, 1⟩⟩) :=
  createTransaction_default_date 555 stEx ⟨1, "coffee", 4, 0, 1⟩ rfl
    (by decide) (by decide)

/-- C8: registration, login and user listing never expose a secret — neither
the plaintext nor the stored hash: every user record embedded in any of their
responses carries an empty password field, and the login response embeds no
user record at all. -/
theorem responses_never_contain_secret
    (hash : String → String) (cmp : String → String → Bool) (st : DBState)
    (username password : String) :
    ((bodyPasswords (registerUser hash st username password).2.body).all
        (fun p => p == "") = true)
    ∧ bodyPasswords (loginUser cmp st username password).body = []
    ∧ ((bodyPasswords (getAllUsers st).body).all (fun p => p == "") = true) := by
  refine ⟨?_, ?_, ?_⟩
  · cases h : usernameTaken st username with
    | true => simp [registerUser, h, bodyPasswords]
    | false => simp [registerUser, h, bodyPasswords]
  · cases h : st.users.find? (fun u => u.username == username) with
    | none => simp [loginUser, h, bodyPasswords]
    | some u =>
      cases hc : cmp u.password password with
      | true => simp [loginUser, h, hc, bodyPasswords]
      | false => simp [loginUser, h, hc, bodyPasswords]
  · simp [getAllUsers, bodyPasswords, List.all_eq_true]

end Budgello

namespace Budgello

/-- A successful scan reproduces exactly the queried rows: mapping the scanned
Go structs back to database rows gives the original result set. -/
theorem scanTransactions_map_toRow :
    ∀ {l : List TransactionRow} {os : List TransactionOut},
      scanTransactions l = some os → os.map outToRow = l := by
  intro l
  induction l with
  | nil =>
    intro os h
    simp [scanTransactions] at h
    subst h
    rfl
  | cons t ts ih =>
    intro os h
    cases hc : t.categoryId with
    | none => simp [scanTransactions, scanTransaction, hc] at h
    | some c =>
      cases hts : scanTransactions ts with
      | none => simp [scanTransactions, scanTransaction, hc, hts] at h
      | some os2 =>
        simp [scanTransactions, scanTransaction, hc, hts] at h
        subst h
        simp [outToRow, ih hts]
        cases t
        simp_all

/-- C6: GetTransactions for a user answers 200 with rows ordered newest-first
by date (each date is at least the next one), and the scanned rows are exactly
a permutation of the user's transactions, whenever the row scan succeeds. -/
theorem getTransactions_sorted_newest_first
    (st : DBState) (uid : Int) (outs : List TransactionOut)
    (h : scanTransactions (transactionsQuery st uid) = some outs) :
    getTransactions st uid = ⟨200, .txns outs⟩
    ∧ outs.Pairwise (fun a b => b.date ≤ a.date)
    ∧ List.Perm (outs.map outToRow)
        (st.transactions.filter (fun t => t.userId == uid)) := by
  refine ⟨by simp [getTransactions, h], ?_, ?_⟩
  · have hs : List.Sorted dateGe (transactionsQuery st uid) :=
      List.sorted_insertionSort dateGe _
    rw [← scanTransactions_map_toRow h] at hs
    exact List.pairwise_map.mp hs
  · rw [scanTransactions_map_toRow h]
    exact List.perm_insertionSort dateGe _

/-- C6 witness: in the concrete state user 1's listing is 200 with the
date-200 row before the date-100 row, sorted and a permutation of the user's
two transactions. -/
theorem getTransactions_sorted_newest_first_witness :
    getTransactions stEx 1 =
      ⟨200, .txns [⟨2, 1, "bread", 3, 200, 1⟩, ⟨1, 1, "milk", 5, 100, 1⟩]⟩
    ∧ List.Pairwise (fun a b : TransactionOut => b.date ≤ a.date)
        [⟨2, 1, "bread", 3, 200, 1⟩, ⟨1, 1, "milk", 5, 100, 1⟩]
    ∧ List.Perm
        (([⟨2, 1, "bread", 3, 200, 1⟩, ⟨1, 1, "milk", 5, 100, 1⟩] :
            List TransactionOut).map outToRow)
        (stEx.transactions.filter (fun t => t.userId == 1)) :=
  getTransactions_sorted_newest_first stEx 1
    [⟨2, 1, "bread", 3, 200, 1⟩, ⟨1, 1, "milk", 5, 100, 1⟩] (by decide)

/-- C10 counterexample: a user-update request that omits the role does not
write the zero value "" into the role column: the write would violate the role
CHECK constraint, so the whole update fails with 500 and the row — user 1,
whose role is "user" — is left unchanged. -/
theorem updateUser_omitted_role_cex :
    updateUser stEx 1 ⟨some "alice2", none⟩ =
      (stEx, ⟨500, .error "Failed to update user"⟩)
    ∧ alice ∈ stEx.users ∧ alice.id = 1 ∧ alice.role = "user" := by decide

/-- C10 amended: each update handler overwrites its fixed set of columns
(user: username, role; transaction: description, amount, date, category id;
budget: period, frequency, amount) with the values decoded from the request
body — a JSON-omitted field decoding to the Go zero value — and leaves every
other column and every other row unchanged, so partial updates are
unsupported; but only provided the decoded values satisfy the schema
constraints.  When they do not (role or frequency outside the allowed set,
category id not referencing an existing category), the whole update fails with
500 and the target row keeps all its old values. -/
theorem update_overwrites_decoded_fields (st : DBState) (id : Int) :
    (∀ (r : UserUpdateReq) (u : UserRow),
      st.users.find? (fun v => v.id == id) = some u →
      ((roleOk (r.role.getD "") = true →
        st.users.any (fun v => !(v.id == id) && v.username == r.username.getD "") = false →
        updateUser st id r =
          ({ st with users := st.users.map (fun v =>
              if v.id == id then
                { v with username := r.username.getD "", role := r.role.getD "" }
              else v) },
           ⟨200, .message "User updated successfully"⟩))
       ∧ (roleOk (r.role.getD "") = false →
          updateUser st id r = (st, ⟨500, .error "Failed to update user"⟩))))
    ∧ (∀ (r : TxnUpdateReq) (t : TransactionRow),
      st.transactions.find? (fun v => v.id == id) = some t →
      ((categoryExists st (r.categoryId.getD 0) = true →
        updateTransaction st id r =
          ({ st with transactions := st.transactions.map (fun v =>
              if v.id == id then
                { v with description := r.description.getD "",
                         amount := r.amount.getD 0, date := r.date.getD 0,
                         categoryId := some (r.categoryId.getD 0) }
              else v) },
           ⟨200, .message "Transaction updated successfully"⟩))
       ∧ (categoryExists st (r.categoryId.getD 0) = false →
          updateTransaction st id r =
            (st, ⟨500, .error "Failed to update transaction"⟩))))
    ∧ (∀ (r : BudgetUpdateReq) (b : BudgetRow),
      st.budgets.find? (fun v => v.id == id) = some b →
      ((frequencyOk (r.frequency.getD "") = true →
        st.budgets.any (fun v => !(v.id == id) && v.userId == b.userId
          && v.frequency == r.frequency.getD "") = false →
        updateBudget st id r =
          ({ st with budgets := st.budgets.map (fun v =>
              if v.id == id then
                { v with period := r.period.getD 0,
                         frequency := r.frequency.getD "",
                         amount := r.amount.getD 0 }
              else v) },
           ⟨200, .message "Budget updated successfully"⟩))
       ∧ (frequencyOk (r.frequency.getD "") = false →
          updateBudget st id r = (st, ⟨500, .error "Failed to update budget"⟩)))) := by
  refine ⟨?_, ?_, ?_⟩
  · intro r u hfind
    refine ⟨?_, ?_⟩
    · intro hrole hdup
      simp [updateUser, hfind, hrole, hdup]
    · intro hrole
      simp [updateUser, hfind, hrole]
  · intro r t hfind
    refine ⟨?_, ?_⟩
    · intro hcat
      simp [updateTransaction, hfind, hcat]
    · intro hcat
      simp [updateTransaction, hfind, hcat]
  · intro r b hfind
    refine ⟨?_, ?_⟩
    · intro hfreq hdup
      simp [updateBudget, hfind, hfreq, hdup]
    · intro hfreq
      simp [updateBudget, hfind, hfreq]

/-- C10 witness: the amended statement instantiated in the concrete state —
one succeeding full overwrite and one constraint-violating 500 for each of the
three entities. -/
theorem update_overwrites_decoded_fields_witness :
    updateUser stEx 1 ⟨some "al2", some "admin"⟩ =
      ({ stEx with users := stEx.users.map (fun v =>
          if v.id == 1 then { v with username := "al2", role := "admin" } else v) },
       ⟨200, .message "User updated successfully"⟩)
    ∧ updateUser stEx 1 ⟨some "al2", none⟩ =
      (stEx, ⟨500, .error "Failed to update user"⟩)
    ∧ updateTransaction stEx 1 ⟨some "x", some 7, some 300, some 1⟩ =
      ({ stEx with transactions := stEx.transactions.map (fun v =>
          if v.id == 1 then
            { v with description := "x", amount := 7, date := 300,
                     categoryId := some 1 }
          else v) },
       ⟨200, .message "Transaction updated successfully"⟩)
    ∧ updateTransaction stEx 1 ⟨none, none, none, none⟩ =
      (stEx, ⟨500, .error "Failed to update transaction"⟩)
    ∧ updateBudget stEx 1 ⟨some 10, some "weekly", some 9⟩ =
      ({ stEx with budgets := stEx.budgets.map (fun v =>
          if v.id == 1 then
            { v with period := 10, frequency := "weekly", amount := 9 }
          else v) },
       ⟨200, .message "Budget updated successfully"⟩)
    ∧ updateBudget stEx 1 ⟨some 10, none, some 9⟩ =
      (stEx, ⟨500, .error "Failed to update budget"⟩) := by
  have h := update_overwrites_decoded_fields stEx 1
  exact ⟨(h.1 ⟨some "al2", some "admin"⟩ alice (by decide)).1 (by decide) (by decide),
         (h.1 ⟨some "al2", none⟩ alice (by decide)).2 (by decide),
         (h.2.1 ⟨some "x", some 7, some 300, some 1⟩ ⟨1, 1, "milk", 5, 100, some 1⟩
            (by decide)).1 (by decide),
         (h.2.1 ⟨none, none, none, none⟩ ⟨1, 1, "milk", 5, 100, some 1⟩
            (by decide)).2 (by decide),
         (h.2.2 ⟨some 10, some "weekly", some 9⟩ ⟨1, 1, 0, "monthly", 2500⟩
            (by decide)).1 (by decide) (by decide),
         (h.2.2 ⟨some 10, none, some 9⟩ ⟨1, 1, 0, "monthly", 2500⟩
            (by decide)).2 (by decide)⟩

end Budgello

namespace Frontend

/-- Folding amount additions from an accumulator equals the accumulator plus
the sum of the mapped amounts. -/
theorem foldl_add_amount (l : List Txn) :
    ∀ a : Rat, l.foldl (fun sum t => sum + t.amount) a =
      a + (l.map (fun t => t.amount)).sum := by
  induction l with
  | nil => intro a; simp
  | cons t ts ih => intro a; simp [List.foldl_cons, ih, add_assoc]

/-- C9: the dashboard period-spend computation is a pure, deterministic
function of the fetched transactions and the period start: recomputing it on
the unchanged list yields the identical total, it equals the sum of the
amounts of the transactions dated at/after the period start, and it does not
depend on the order in which the transactions were fetched. -/
theorem periodSpend_deterministic
    (periodStart : Int) (ts ts2 : List Txn)
    (hperm : List.Perm ts ts2) :
    periodSpend periodStart ts = periodSpend periodStart ts
    ∧ periodSpend periodStart ts =
        ((ts.filter (fun t => decide (periodStart ≤ t.date))).map
          (fun t => t.amount)).sum
    ∧ periodSpend periodStart ts = periodSpend periodStart ts2 := by
  refine ⟨rfl, ?_, ?_⟩
  · unfold periodSpend
    rw [foldl_add_amount]
    simp
  · unfold periodSpend
    rw [foldl_add_amount, foldl_add_amount]
    have h := ((hperm.filter (fun t => decide (periodStart ≤ t.date))).map
        (fun t => t.amount)).sum_eq
    simp [h]

/-- C9 witness: the aggregation over two concrete transactions agrees with its
recomputation, with the filtered sum, and with the reversed fetch order. -/
theorem periodSpend_deterministic_witness :
    periodSpend 150 [txnA, txnB] = periodSpend 150 [txnA, txnB]
    ∧ periodSpend 150 [txnA, txnB] =
        (([txnA, txnB].filter (fun t => decide ((150 : Int) ≤ t.date))).map
          (fun t => t.amount)).sum
    ∧ periodSpend 150 [txnA, txnB] = periodSpend 150 [txnB, txnA] :=
  periodSpend_deterministic 150 [txnA, txnB] [txnB, txnA]
    (List.Perm.swap txnB txnA [])

end Frontend
